import Mathlib

/-!
# Product controller of carrot-market-clone-api

A shallow embedding of `src/controllers/ProductController.go`.

* A gin handler `func (p *ProductControllerImpl) H(c *gin.Context)` becomes a function
  `H svc c w : Outcome × World σ`: it reads the request `c`, talks to the product service `svc`
  and leaves the response it wrote together with the world after the request.
* The service (`services.ProductSerivce`) is an interface whose implementation is not part of the
  controller; it is a parameter.  Every method is a transformer of the service's store `σ`.
* The world `World σ` holds the store and the log of the service calls made so far, so that
  "which service function was invoked, with which arguments" is a statement about the log.
* Go pointers that may be nil (`*string`, `*int`, `error`, function values) are `Option`s.
-/

namespace Controllers

/-! ## Errors -/

/-- Go `error` values that reach the controller.  `gorm.ErrRecordNotFound` is the sentinel the
handlers compare against with `==`; `ErrSyntax` and `ErrRange` are the two `*strconv.NumError`s
`strconv.Atoi` reports (with the offending text); every other error is `other`. -/
inductive Error where
  | ErrRecordNotFound
  | ErrSyntax (num : String)
  | ErrRange (num : String)
  | other (msg : String)
  deriving DecidableEq, Repr

/-! ## `strconv.Atoi` (64-bit `int`) -/

/-- The value of a decimal digit, `none` for any other character (`ch -= '0'; ch > 9`). -/
def digitVal (ch : Char) : Option Nat :=
  if '0' ≤ ch ∧ ch ≤ '9' then some (ch.toNat - '0'.toNat) else none

/-- The digit loop of `strconv.ParseUint(s, 10, 64)`: a character that is no digit is a syntax
error (`false`), a running value above `2^64 - 1` is a range error (`true`), whichever comes
first from the left. -/
def parseUint : List Char → Nat → Except Bool Nat
  | [], n => .ok n
  | ch :: rest, n =>
    match digitVal ch with
    | none => .error false
    | some d =>
      if 2 ^ 64 ≤ n * 10 + d then .error true
      else parseUint rest (n * 10 + d)

/-- Go's `strconv.Atoi`: an optional sign followed by at least one decimal digit, the value within
the range of a 64-bit `int`. -/
def Atoi (s : String) : Except Error Int :=
  let neg : Bool := s.toList.head? = some '-'
  let digits : List Char :=
    match s.toList with
    | '-' :: rest => rest
    | '+' :: rest => rest
    | cs => cs
  match digits with
  | [] => .error (.ErrSyntax s)
  | _ :: _ =>
    match parseUint digits 0 with
    | .error false => .error (.ErrSyntax s)
    | .error true => .error (.ErrRange s)
    | .ok un =>
      if neg then
        if 2 ^ 63 < un then .error (.ErrRange s) else .ok (-(un : Int))
      else
        if 2 ^ 63 ≤ un then .error (.ErrRange s) else .ok (un : Int)

/-! ## Models -/

/-- Modelled from the spec: `models.Product` is declared outside the controller.  The controller
itself only reads `ID` and `UserID`; the other fields follow the data model of the spec. -/
structure Product where
  ID : Int := 0
  UserID : String := ""
  Title : String := ""
  Price : Int := 0
  CategoryID : Option Int := none
  Images : List String := []
  deriving DecidableEq, Repr

/-- The two fields of `models.Wish` the controller fills in. -/
structure Wish where
  UserID : String
  ProductID : Int
  deriving DecidableEq, Repr

/-- An opened `multipart.File`, named by its content. -/
structure File where
  content : String
  deriving DecidableEq, Repr

/-- A `*multipart.FileHeader`: `Open` is what `fileHeader.Open()` yields. -/
structure FileHeader where
  Filename : String
  Open : Except Error File

/-- The form `ProductForm` bound by `InsertProduct`. -/
structure ProductForm where
  Files : List FileHeader
  Json : String

/-- Modelled from the spec: the type of the validation report the service's `InsertProduct`
returns is declared outside the controller; the spec describes it as structured per-field
detail. -/
structure ValidationResult where
  fields : List (String × String)
  deriving DecidableEq, Repr

/-! ## The request -/

/-- The part of `*gin.Context` the handlers read: the path parameters, the query string (in
order, a key may repeat), and what `c.ShouldBind` yields for the multipart form of
`InsertProduct` and for the product of `UpdateProduct`. -/
structure Context where
  Params : List (String × String) := []
  Query : List (String × String) := []
  ShouldBindForm : Except Error ProductForm := .error (.other "EOF")
  ShouldBindProduct : Except Error Product := .error (.other "EOF")

/-- Go's `c.Param(key)`: the value of the path parameter, the empty string when there is none. -/
def Context.Param (c : Context) (key : String) : String :=
  (c.Params.lookup key).getD ""

/-- Go's `c.GetQuery(key)`: the first value of the key, `none` when the key is absent. -/
def Context.GetQuery (c : Context) (key : String) : Option String :=
  c.Query.lookup key

/-- Go's `c.DefaultQuery(key, defaultValue)`. -/
def Context.DefaultQuery (c : Context) (key defaultValue : String) : String :=
  match c.GetQuery key with
  | some value => value
  | none => defaultValue

/-! ## The response -/

/-- What a handler writes as the body. -/
inductive Body where
  /-- Nothing: `c.Status(code)`. -/
  | empty
  /-- The body `gin.H{"message": err.Error()}`: the message is the text of the error. -/
  | messageText (err : Error)
  /-- The body `gin.H{"message": err}`: the message is the error value itself. -/
  | message (err : Error)
  /-- The validation report of `InsertProduct`. -/
  | validation (v : ValidationResult)
  /-- The product of `GetProduct`. -/
  | product (p : Option Product)
  /-- The body `gin.H{"size": size, "products": products}`. -/
  | products (size : Int) (products : List Product)
  /-- The body `gin.H{"size": size, "userId": userId, "products": products}`. -/
  | userProducts (size : Int) (userId : String) (products : List Product)
  deriving DecidableEq, Repr

/-- How a handler ends. -/
inductive Outcome where
  /-- The handler wrote a status and a body. -/
  | wrote (status : Nat) (body : Body)
  /-- The handler returned without writing anything. -/
  | silent
  /-- The handler called a nil function value. -/
  | panicked
  deriving DecidableEq, Repr

/-- The HTTP status of the response: gin answers 200 when the handler wrote nothing; a panic
has no status of the handler's. -/
def Outcome.status : Outcome → Option Nat
  | .wrote status _ => some status
  | .silent => some 200
  | .panicked => none

/-! ## The service -/

/-- The service methods that hand back a listing function. -/
inductive Factory where
  | GetProductsOrderByPrice (asc : Bool)
  | GetProductsOrderByID (asc : Bool)
  | GetUserProductsOrderByPrice (asc : Bool)
  | GetUserProductsOrderByID (asc : Bool)
  deriving DecidableEq, Repr

/-- A call of the service, as logged. -/
inductive Call where
  | InsertProduct (files : List File) (product : Product)
  | GetProduct (productId : Int)
  | DeleteProduct (userId : String) (productId : Int)
  /-- A call of one of the methods that return a listing function. -/
  | factory (f : Factory)
  /-- An invocation of the `GetProductsFunc` that the call `origin` returned. -/
  | GetProductsFunc (origin : Factory) (keyword : Option String) (category last : Option Int)
      (size : Int)
  /-- An invocation of the `GetUserProductsFunc` that the call `origin` returned. -/
  | GetUserProductsFunc (origin : Factory) (userId : String) (last : Option Int) (size : Int)
  | GetWishProducts (userId : String) (last : Option Int) (size : Int)
  | WishProduct (wish : Wish)
  | DeleteWish (wish : Wish)
  deriving DecidableEq, Repr

/-- The three results of a listing: the products, a size, an error. -/
abbrev Listing := List Product × Int × Option Error

/-- The type `services.GetProductsFunc`, as the controller calls it. -/
abbrev GetProductsFunc (σ : Type) :=
  Option String → Option Int → Option Int → Int → σ → Listing × σ

/-- The type `services.GetUserProductsFunc`, as the controller calls it. -/
abbrev GetUserProductsFunc (σ : Type) :=
  String → Option Int → Int → σ → Listing × σ

/-- The interface `services.ProductSerivce`, with the signatures the controller uses.  A method
returning a function may return nil (`none`). -/
structure ProductService (σ : Type) where
  InsertProduct : List File → Product → σ → (Option ValidationResult × Option Error) × σ
  GetProduct : Int → σ → (Option Product × Option Error) × σ
  DeleteProduct : String → Int → σ → Option Error × σ
  GetProductsOrderByPrice : Bool → σ → Option (GetProductsFunc σ) × σ
  GetProductsOrderByID : Bool → σ → Option (GetProductsFunc σ) × σ
  GetUserProductsOrderByPrice : Bool → σ → Option (GetUserProductsFunc σ) × σ
  GetUserProductsOrderByID : Bool → σ → Option (GetUserProductsFunc σ) × σ
  GetWishProducts : String → Option Int → Int → σ → Listing × σ
  WishProduct : Wish → σ → (Bool × Option Error) × σ
  DeleteWish : Wish → σ → Option Error × σ

/-- The store behind the service and the service calls made so far, oldest first. -/
structure World (σ : Type) where
  store : σ
  calls : List Call

/-- Run one service operation: the store moves on and the call is logged. -/
def World.invoke {σ α : Type} (w : World σ) (call : Call) (op : σ → α × σ) : α × World σ :=
  ((op w.store).1, { store := (op w.store).2, calls := w.calls ++ [call] })

/-- A function value held by the controller: the service call it came from and the function. -/
structure Closure (φ : Type) where
  origin : Factory
  run : φ

/-- Call a method that returns a function and keep the result (nil is `none`). -/
def World.obtain {σ φ : Type} (w : World σ) (origin : Factory) (op : σ → Option φ × σ) :
    Option (Closure φ) × World σ :=
  let r := w.invoke (.factory origin) op
  (r.1.map (fun run => { origin := origin, run := run }), r.2)

/-- Go's `m[key]` on a map of function values: the zero value nil when the key is missing. -/
def mapIndex {φ : Type} (m : List (String × Option (Closure φ))) (key : String) :
    Option (Closure φ) :=
  (m.lookup key).getD none

/-! ## The handlers -/

/-- The loop of `InsertProduct` over `form.Files`: open every header in order, stop at the first
that fails. -/
def openFiles : List FileHeader → List File → Except Error (List File)
  | [], files => .ok files
  | fileHeader :: rest, files =>
    match fileHeader.Open with
    | .error err => .error err
    | .ok file => openFiles rest (files ++ [file])

/-- Handler `InsertProduct` (`POST api/v1/user/{user_id}/products`).  `jsonUnmarshal data v` is
`json.Unmarshal(data, &v)`: the value after decoding and the error; the handler drops the
error. -/
def InsertProduct {σ : Type} (jsonUnmarshal : String → Product → Product × Option Error)
    (svc : ProductService σ) (c : Context) (w : World σ) : Outcome × World σ :=
  match c.ShouldBindForm with
  | .error err => (.wrote 400 (.messageText err), w)
  | .ok form =>
    let userId := c.Param "userId"
    let product := (jsonUnmarshal form.Json {}).1
    if product.UserID ≠ userId then (.wrote 403 .empty, w)
    else
      match openFiles form.Files [] with
      | .error err => (.wrote 400 (.messageText err), w)
      | .ok files =>
        let r := w.invoke (.InsertProduct files product) (svc.InsertProduct files product)
        match r.1 with
        | (some validationResult, _) => (.wrote 422 (.validation validationResult), r.2)
        | (none, some err) => (.wrote 400 (.messageText err), r.2)
        | (none, none) => (.wrote 201 .empty, r.2)

/-- Handler `UpdateProduct` (`PUT api/v1/user/{user_id}/product/{product_id}`).  When the product
exists the handler returns without writing a response. -/
def UpdateProduct {σ : Type} (svc : ProductService σ) (c : Context) (w : World σ) :
    Outcome × World σ :=
  let userId := c.Param "userId"
  match c.ShouldBindProduct with
  | .error err => (.wrote 400 (.messageText err), w)
  | .ok product =>
    if product.UserID ≠ userId then (.wrote 403 .empty, w)
    else
      let r := w.invoke (.GetProduct product.ID) (svc.GetProduct product.ID)
      match r.1.2 with
      | some err =>
        if err = .ErrRecordNotFound then (.wrote 404 .empty, r.2)
        else (.wrote 400 (.message err), r.2)
      | none => (.silent, r.2)

/-- Handler `DeleteProduct` (`DELETE api/v1/user/{user_id}/products{product_id}`). -/
def DeleteProduct {σ : Type} (svc : ProductService σ) (c : Context) (w : World σ) :
    Outcome × World σ :=
  match Atoi (c.Param "productId") with
  | .error err => (.wrote 400 (.message err), w)
  | .ok productId =>
    let userId := c.Param "userId"
    let r := w.invoke (.DeleteProduct userId productId) (svc.DeleteProduct userId productId)
    match r.1 with
    | some err =>
      if err = .ErrRecordNotFound then (.wrote 404 .empty, r.2)
      else (.wrote 400 (.message err), r.2)
    | none => (.wrote 200 .empty, r.2)

/-- Handler `GetProduct` (`GET api/v1/products/{product_id}`). -/
def GetProduct {σ : Type} (svc : ProductService σ) (c : Context) (w : World σ) :
    Outcome × World σ :=
  match Atoi (c.Param "productId") with
  | .error err => (.wrote 400 (.message err), w)
  | .ok productId =>
    let r := w.invoke (.GetProduct productId) (svc.GetProduct productId)
    match r.1.2 with
    | some err =>
      if err = .ErrRecordNotFound then (.wrote 404 .empty, r.2)
      else (.wrote 400 (.message err), r.2)
    | none => (.wrote 200 (.product r.1.1), r.2)

/-- The block that decodes an optional integer query parameter (`category` and `last` in
`GetProducts`, `last` in `GetUserProducts` and `GetWishProducts`): nil when the key is absent,
the integer when the value parses, the error of `strconv.Atoi` otherwise. -/
def queryInt (c : Context) (key : String) : Except Error (Option Int) :=
  match c.GetQuery key with
  | some str =>
    match Atoi str with
    | .error err => .error err
    | .ok temp => .ok (some temp)
  | none => .ok none

/-- The map literal `getProductsFuncMap` of `GetProducts`: four service calls, in the order of
the literal. -/
def getProductsFuncMap {σ : Type} (svc : ProductService σ) (w : World σ) :
    List (String × Option (Closure (GetProductsFunc σ))) × World σ :=
  let r1 := w.obtain (.GetProductsOrderByPrice true) (svc.GetProductsOrderByPrice true)
  let r2 := r1.2.obtain (.GetProductsOrderByPrice false) (svc.GetProductsOrderByPrice false)
  let r3 := r2.2.obtain (.GetProductsOrderByID true) (svc.GetProductsOrderByID true)
  let r4 := r3.2.obtain (.GetProductsOrderByID false) (svc.GetProductsOrderByID false)
  ([("price", r1.1), ("pricedesc", r2.1), ("id", r3.1), ("iddesc", r4.1)], r4.2)

/-- The map literal `getUserProductsFuncMap` of `GetUserProducts`. -/
def getUserProductsFuncMap {σ : Type} (svc : ProductService σ) (w : World σ) :
    List (String × Option (Closure (GetUserProductsFunc σ))) × World σ :=
  let r1 := w.obtain (.GetUserProductsOrderByPrice true) (svc.GetUserProductsOrderByPrice true)
  let r2 := r1.2.obtain (.GetUserProductsOrderByPrice false)
    (svc.GetUserProductsOrderByPrice false)
  let r3 := r2.2.obtain (.GetUserProductsOrderByID true) (svc.GetUserProductsOrderByID true)
  let r4 := r3.2.obtain (.GetUserProductsOrderByID false) (svc.GetUserProductsOrderByID false)
  ([("price", r1.1), ("pricedesc", r2.1), ("id", r3.1), ("iddesc", r4.1)], r4.2)

/-- Invoke a `GetProductsFunc` value; `none` when the value is nil (the call panics). -/
def callGetProductsFunc {σ : Type} (f : Option (Closure (GetProductsFunc σ)))
    (keyword : Option String) (category last : Option Int) (size : Int) (w : World σ) :
    Option (Listing × World σ) :=
  match f with
  | none => none
  | some g =>
    some (w.invoke (.GetProductsFunc g.origin keyword category last size)
      (g.run keyword category last size))

/-- Invoke a `GetUserProductsFunc` value; `none` when the value is nil (the call panics). -/
def callGetUserProductsFunc {σ : Type} (f : Option (Closure (GetUserProductsFunc σ)))
    (userId : String) (last : Option Int) (size : Int) (w : World σ) :
    Option (Listing × World σ) :=
  match f with
  | none => none
  | some g =>
    some (w.invoke (.GetUserProductsFunc g.origin userId last size) (g.run userId last size))

/-- The choice of lines 206-214 (and 255-263): with a `sort` value whose entry in the map is
not nil that entry, in every other case the entry under `iddesc`. -/
def selectFunc {φ : Type} (m : List (String × Option (Closure φ))) (sort : Option String) :
    Option (Closure φ) :=
  match sort with
  | some sortStr =>
    match mapIndex m sortStr with
    | some getProductsFunc => some getProductsFunc
    | none => mapIndex m "iddesc"
  | none => mapIndex m "iddesc"

/-- Handler `GetProducts` (`GET api/v1/products`). -/
def GetProducts {σ : Type} (svc : ProductService σ) (c : Context) (w : World σ) :
    Outcome × World σ :=
  match Atoi (c.DefaultQuery "size" "10") with
  | .error err => (.wrote 400 (.message err), w)
  | .ok size =>
    let keyword := c.GetQuery "keyword"
    match queryInt c "category" with
    | .error err => (.wrote 400 (.message err), w)
    | .ok category =>
      match queryInt c "last" with
      | .error err => (.wrote 400 (.message err), w)
      | .ok last =>
        let m := getProductsFuncMap svc w
        match callGetProductsFunc (selectFunc m.1 (c.GetQuery "sort")) keyword category last
            size m.2 with
        | none => (.panicked, m.2)
        | some r =>
          match r.1.2.2 with
          | some err => (.wrote 400 (.message err), r.2)
          | none => (.wrote 200 (.products size r.1.1), r.2)

/-- Handler `GetUserProducts` (`GET api/v1/user/{user_id}/products`). -/
def GetUserProducts {σ : Type} (svc : ProductService σ) (c : Context) (w : World σ) :
    Outcome × World σ :=
  let userId := c.Param "userId"
  match queryInt c "last" with
  | .error err => (.wrote 400 (.message err), w)
  | .ok last =>
    match Atoi (c.DefaultQuery "size" "10") with
    | .error err => (.wrote 400 (.message err), w)
    | .ok size =>
      let m := getUserProductsFuncMap svc w
      match callGetUserProductsFunc (selectFunc m.1 (c.GetQuery "sort")) userId last size
          m.2 with
      | none => (.panicked, m.2)
      | some r =>
        match r.1.2.2 with
        | some err =>
          if err = .ErrRecordNotFound then (.wrote 404 .empty, r.2)
          else (.wrote 400 (.message err), r.2)
        | none => (.wrote 200 (.userProducts size userId r.1.1), r.2)

/-- Handler `GetWishProducts` (`GET /api/v1/users/{userId}/products_wish`). -/
def GetWishProducts {σ : Type} (svc : ProductService σ) (c : Context) (w : World σ) :
    Outcome × World σ :=
  let userId := c.Param "userId"
  match queryInt c "last" with
  | .error err => (.wrote 400 (.message err), w)
  | .ok last =>
    match Atoi (c.DefaultQuery "size" "10") with
    | .error err => (.wrote 400 (.message err), w)
    | .ok size =>
      let r := w.invoke (.GetWishProducts userId last size) (svc.GetWishProducts userId last size)
      match r.1.2.2 with
      | some err => (.wrote 400 (.message err), r.2)
      | none => (.wrote 200 (.userProducts size userId r.1.1), r.2)

/-- Handler `WishProduct` (`POST /api/v1/users/{userId}/products/{productId}/wish`). -/
def WishProduct {σ : Type} (svc : ProductService σ) (c : Context) (w : World σ) :
    Outcome × World σ :=
  let userId := c.Param "userId"
  match Atoi (c.Param "productId") with
  | .error err => (.wrote 400 (.message err), w)
  | .ok productId =>
    let wish : Wish := { UserID := userId, ProductID := productId }
    let r := w.invoke (.WishProduct wish) (svc.WishProduct wish)
    if r.1.1 then (.wrote 403 .empty, r.2)
    else
      match r.1.2 with
      | some err =>
        if err = .ErrRecordNotFound then (.wrote 404 .empty, r.2)
        else (.wrote 400 (.message err), r.2)
      | none => (.wrote 200 .empty, r.2)

/-- Handler `DeleteWish` (`DELETE /api/v1/users/{userId}/products/{productId}/wish`). -/
def DeleteWish {σ : Type} (svc : ProductService σ) (c : Context) (w : World σ) :
    Outcome × World σ :=
  let userId := c.Param "userId"
  match Atoi (c.Param "productId") with
  | .error err => (.wrote 400 (.message err), w)
  | .ok productId =>
    let wish : Wish := { UserID := userId, ProductID := productId }
    let r := w.invoke (.DeleteWish wish) (svc.DeleteWish wish)
    match r.1 with
    | some err =>
      if err = .ErrRecordNotFound then (.wrote 404 .empty, r.2)
      else (.wrote 400 (.message err), r.2)
    | none => (.wrote 200 .empty, r.2)

/-! ## Predicates and sample inputs used by the statements -/

/-- The service never hands back a nil listing function. -/
def ProductService.FuncsNonNil {σ : Type} (svc : ProductService σ) : Prop :=
  ∀ (asc : Bool) (s : σ),
    (svc.GetProductsOrderByPrice asc s).1.isSome = true ∧
    (svc.GetProductsOrderByID asc s).1.isSome = true ∧
    (svc.GetUserProductsOrderByPrice asc s).1.isSome = true ∧
    (svc.GetUserProductsOrderByID asc s).1.isSome = true

/-- How an optional integer parameter is to be decoded: no value for an absent parameter, the
integer `n` for a parameter whose text parses as `n`. -/
def DecodesTo (raw : Option String) (value : Option Int) : Prop :=
  (raw = none ∧ value = none) ∨
  (∃ (str : String) (n : Int), raw = some str ∧ Atoi str = .ok n ∧ value = some n)

/-- The four service calls of a map literal, as logged. -/
def productsFactoryCalls : List Call :=
  [.factory (.GetProductsOrderByPrice true), .factory (.GetProductsOrderByPrice false),
   .factory (.GetProductsOrderByID true), .factory (.GetProductsOrderByID false)]

/-- The four service calls of the map literal of `GetUserProducts`, as logged. -/
def userProductsFactoryCalls : List Call :=
  [.factory (.GetUserProductsOrderByPrice true), .factory (.GetUserProductsOrderByPrice false),
   .factory (.GetUserProductsOrderByID true), .factory (.GetUserProductsOrderByID false)]

/-- A service over a store that counts the operations run on it.  Every operation answers with
the same listing `r` (its error is the error of the operations that return only an error) and
`WishProduct` with `found`. -/
def fixedService (r : Listing) (found : Bool) : ProductService Nat where
  InsertProduct := fun _ _ s => ((none, r.2.2), s + 1)
  GetProduct := fun _ s => ((r.1.head?, r.2.2), s + 1)
  DeleteProduct := fun _ _ s => (r.2.2, s + 1)
  GetProductsOrderByPrice := fun _ s => (some (fun _ _ _ _ t => (r, t + 1)), s)
  GetProductsOrderByID := fun _ s => (some (fun _ _ _ _ t => (r, t + 1)), s)
  GetUserProductsOrderByPrice := fun _ s => (some (fun _ _ _ t => (r, t + 1)), s)
  GetUserProductsOrderByID := fun _ s => (some (fun _ _ _ t => (r, t + 1)), s)
  GetWishProducts := fun _ _ _ s => (r, s + 1)
  WishProduct := fun _ s => ((found, r.2.2), s + 1)
  DeleteWish := fun _ s => (r.2.2, s + 1)

/-- A world with nothing stored and nothing logged. -/
def freshWorld : World Nat := { store := 0, calls := [] }

/-- A request of user `u1` about product 7 (`.../users/u1/products/7/...`). -/
def wishRequest : Context :=
  { Params := [("userId", "u1"), ("productId", "7")] }

/-- A product that declares `alice` as its owner. -/
def alicesProduct : Product :=
  { ID := 7, UserID := "alice", Title := "bicycle", Price := 120 }

/-- A request of `bob` about product 7, carrying `alicesProduct` both as the product bound by
`UpdateProduct` and, as text, in the form of `InsertProduct`. -/
def requestByBob : Context :=
  { Params := [("userId", "bob"), ("productId", "7")]
    ShouldBindForm := .ok { Files := [{ Filename := "a.png", Open := .ok { content := "png" } }]
                            Json := "alice" }
    ShouldBindProduct := .ok alicesProduct }

/-- The same request made by `alice` herself. -/
def requestByAlice : Context :=
  { requestByBob with Params := [("userId", "alice"), ("productId", "7")] }

/-- A decoder that reads the text as the owner of the product and reports no error. -/
def ownerDecoder : String → Product → Product × Option Error :=
  fun data v => ({ v with UserID := data }, none)

/-- A listing request with every parameter present: `GET .../products?keyword=bike&category=3`
`&last=40&size=5&sort=price`, from user `u1`. -/
def listRequest : Context :=
  { Params := [("userId", "u1")]
    Query := [("keyword", "bike"), ("category", "3"), ("last", "40"), ("size", "5"),
      ("sort", "price")] }

/-- A listing request without any query parameter, from user `u1`. -/
def bareListRequest : Context :=
  { Params := [("userId", "u1")] }

/-- A listing request that asks for a page of size zero. -/
def zeroSizeRequest : Context :=
  { Params := [("userId", "u1")], Query := [("size", "0")] }

/-- A listing request whose cursor is no integer. -/
def badCursorRequest : Context :=
  { Params := [("userId", "u1")], Query := [("last", "abc")] }

/-- Three products of `alice`. -/
def threeProducts : List Product :=
  [alicesProduct, { alicesProduct with ID := 8, Title := "helmet", Price := 30 },
   { alicesProduct with ID := 9, Title := "lamp", Price := 30 }]

/-- A decoder that rejects its input as syntactically invalid: as `json.Unmarshal` does then, it
leaves the value untouched and reports the error. -/
def syntaxErrorDecoder : String → Product → Product × Option Error :=
  fun _ v => (v, some (.other "unexpected end of JSON input"))

/-- A decoder that fills in the owner `u1` and then fails on a later field of the wrong type. -/
def typeErrorDecoder : String → Product → Product × Option Error :=
  fun _ v => ({ v with UserID := "u1" },
    some (.other "json: cannot unmarshal string into Go struct field Product.price of type int"))

/-- An `InsertProduct` request of user `u1` with one file and a `json` field that is no
JSON document. -/
def malformedJsonRequest : Context :=
  { Params := [("userId", "u1")]
    ShouldBindForm := .ok { Files := [{ Filename := "a.png", Open := .ok { content := "png" } }]
                            Json := "[1, 2" } }

/-- A listing request whose `sort` value is none of the four keys. -/
def unknownSortRequest : Context :=
  { Params := [("userId", "u1")], Query := [("sort", "newest")] }

/-- A listing request sorted by identifier, ascending. -/
def idSortRequest : Context :=
  { Params := [("userId", "u1")], Query := [("sort", "id")] }

/-- The product a listing of the echo service returns: it records in `Images` which function
answered and in the other fields the arguments the function received. -/
def echoProduct (label userId : String) (keyword : Option String) (category last : Option Int)
    (size : Int) : Product :=
  { ID := last.getD (-1), UserID := userId, Title := keyword.getD "(none)", Price := size,
    CategoryID := category, Images := [label] }

/-- A service whose eight listing functions each return one product that records the function
and the arguments it was called with, and a size of 1. -/
def echoService : ProductService Nat :=
  { fixedService ([], 0, none) false with
    GetProductsOrderByPrice := fun asc s =>
      (some (fun keyword category last size t =>
        (([echoProduct (if asc then "price ascending" else "price descending") ""
            keyword category last size], 1, none), t + 1)), s)
    GetProductsOrderByID := fun asc s =>
      (some (fun keyword category last size t =>
        (([echoProduct (if asc then "id ascending" else "id descending") ""
            keyword category last size], 1, none), t + 1)), s)
    GetUserProductsOrderByPrice := fun asc s =>
      (some (fun userId last size t =>
        (([echoProduct (if asc then "user price ascending" else "user price descending")
            userId none none last size], 1, none), t + 1)), s)
    GetUserProductsOrderByID := fun asc s =>
      (some (fun userId last size t =>
        (([echoProduct (if asc then "user id ascending" else "user id descending")
            userId none none last size], 1, none), t + 1)), s) }

/-! ## Theorems -/

/-- C2: for a `WishProduct` request with an integer `productId`, the service is asked once with
the wish of the path parameters, and the status is 403 exactly when the service says the wish
already exists (whatever the error); otherwise 404 for the record-not-found error, 400 for any
other error and 200 for none.  An existing wish is never answered 400. -/
theorem wishProduct_status {σ : Type} (svc : ProductService σ) (c : Context) (w : World σ)
    (productId : Int) (hid : Atoi (c.Param "productId") = .ok productId) :
    let wish : Wish := { UserID := c.Param "userId", ProductID := productId }
    let found := (svc.WishProduct wish w.store).1.1
    let err := (svc.WishProduct wish w.store).1.2
    let out := (WishProduct svc c w).1
    (WishProduct svc c w).2.calls = w.calls ++ [.WishProduct wish] ∧
    (out.status = some 403 ↔ found = true) ∧
    (found = true → out.status ≠ some 400) ∧
    (found = false → err = some .ErrRecordNotFound → out.status = some 404) ∧
    (found = false → ∀ e, err = some e → e ≠ .ErrRecordNotFound → out.status = some 400) ∧
    (found = false → err = none → out.status = some 200) := by
  simp only [WishProduct, hid, World.invoke]
  generalize svc.WishProduct _ w.store = r
  rcases r with ⟨⟨found, err⟩, s⟩
  cases found <;> rcases err with _ | e <;> simp [Outcome.status]
  all_goals by_cases hnf : e = .ErrRecordNotFound <;> simp [hnf]

/-- Witness of C2: a wish that already exists, reported together with an error, is answered
403. -/
theorem wishProduct_status_witness :
    Atoi (wishRequest.Param "productId") = .ok 7 ∧
    (WishProduct (fixedService ([], 0, some (.other "duplicate")) true) wishRequest
      freshWorld).1.status = some 403 :=
  ⟨rfl, (wishProduct_status (fixedService ([], 0, some (.other "duplicate")) true) wishRequest
    freshWorld 7 rfl).2.1.mpr rfl⟩

/-- C3: when the form of `InsertProduct` (resp. the product of `UpdateProduct`) binds and the
owner the product declares differs from the `userId` path parameter, the response is 403 and the
world is left as it was: no service call is logged and the store is unchanged, whatever the
service would have answered about the product. -/
theorem ownership_checked_first {σ : Type}
    (jsonUnmarshal : String → Product → Product × Option Error)
    (svc : ProductService σ) (c : Context) (w : World σ) :
    (∀ form, c.ShouldBindForm = .ok form →
      (jsonUnmarshal form.Json {}).1.UserID ≠ c.Param "userId" →
      InsertProduct jsonUnmarshal svc c w = (.wrote 403 .empty, w)) ∧
    (∀ product, c.ShouldBindProduct = .ok product →
      product.UserID ≠ c.Param "userId" →
      UpdateProduct svc c w = (.wrote 403 .empty, w)) := by
  constructor
  · intro form hform howner
    simp [InsertProduct, hform, howner]
  · intro product hproduct howner
    simp [UpdateProduct, hproduct, howner]

/-- Witness of C3: `bob` inserting or updating a product that declares `alice` as owner gets 403
and the world stays fresh, although the service would have reported the product missing. -/
theorem ownership_checked_first_witness :
    InsertProduct ownerDecoder (fixedService ([], 0, some .ErrRecordNotFound) false)
      requestByBob freshWorld = (.wrote 403 .empty, freshWorld) ∧
    UpdateProduct (fixedService ([], 0, some .ErrRecordNotFound) false)
      requestByBob freshWorld = (.wrote 403 .empty, freshWorld) :=
  ⟨(ownership_checked_first ownerDecoder (fixedService ([], 0, some .ErrRecordNotFound) false)
      requestByBob freshWorld).1 _ rfl (by decide),
   (ownership_checked_first ownerDecoder (fixedService ([], 0, some .ErrRecordNotFound) false)
      requestByBob freshWorld).2 _ rfl (by decide)⟩

/-- C9: in `GetProduct`, `DeleteProduct` and `DeleteWish` with an integer `productId`, and in
`UpdateProduct` with a bound product whose owner is the actor, the record-not-found error of the
service is answered 404 without a body and every other error is answered 400 carrying that
error. -/
theorem not_found_passed_through {σ : Type} (svc : ProductService σ) (c : Context)
    (w : World σ) :
    (∀ productId, Atoi (c.Param "productId") = .ok productId →
      ((svc.GetProduct productId w.store).1.2 = some .ErrRecordNotFound →
          (GetProduct svc c w).1 = .wrote 404 .empty) ∧
      (∀ e, (svc.GetProduct productId w.store).1.2 = some e → e ≠ .ErrRecordNotFound →
          (GetProduct svc c w).1 = .wrote 400 (.message e)) ∧
      ((svc.DeleteProduct (c.Param "userId") productId w.store).1 = some .ErrRecordNotFound →
          (DeleteProduct svc c w).1 = .wrote 404 .empty) ∧
      (∀ e, (svc.DeleteProduct (c.Param "userId") productId w.store).1 = some e →
          e ≠ .ErrRecordNotFound → (DeleteProduct svc c w).1 = .wrote 400 (.message e)) ∧
      ((svc.DeleteWish { UserID := c.Param "userId", ProductID := productId } w.store).1
            = some .ErrRecordNotFound →
          (DeleteWish svc c w).1 = .wrote 404 .empty) ∧
      (∀ e, (svc.DeleteWish { UserID := c.Param "userId", ProductID := productId } w.store).1
            = some e →
          e ≠ .ErrRecordNotFound → (DeleteWish svc c w).1 = .wrote 400 (.message e))) ∧
    (∀ product, c.ShouldBindProduct = .ok product → product.UserID = c.Param "userId" →
      ((svc.GetProduct product.ID w.store).1.2 = some .ErrRecordNotFound →
          (UpdateProduct svc c w).1 = .wrote 404 .empty) ∧
      (∀ e, (svc.GetProduct product.ID w.store).1.2 = some e → e ≠ .ErrRecordNotFound →
          (UpdateProduct svc c w).1 = .wrote 400 (.message e))) := by
  constructor
  · intro productId hid
    simp only [GetProduct, DeleteProduct, DeleteWish, hid, World.invoke]
    refine ⟨?_, ?_, ?_, ?_, ?_, ?_⟩
    · intro h; simp [h]
    · intro e h hne; simp [h, hne]
    · intro h; simp [h]
    · intro e h hne; simp [h, hne]
    · intro h; simp [h]
    · intro e h hne; simp [h, hne]
  · intro product hproduct howner
    simp only [UpdateProduct, hproduct, World.invoke]
    constructor
    · intro h; simp [h, howner]
    · intro e h hne; simp [h, hne, howner]

/-- Witness of C9: with a service that reports record-not-found, the lookup of product 7 is
answered 404 and the update by the owner as well; a different error is answered 400 with the
error as body. -/
theorem not_found_passed_through_witness :
    (GetProduct (fixedService ([], 0, some .ErrRecordNotFound) false) wishRequest
      freshWorld).1 = .wrote 404 .empty ∧
    (DeleteWish (fixedService ([], 0, some (.other "connection refused")) false) wishRequest
      freshWorld).1 = .wrote 400 (.message (.other "connection refused")) ∧
    (UpdateProduct (fixedService ([], 0, some .ErrRecordNotFound) false) requestByAlice
      freshWorld).1 = .wrote 404 .empty :=
  ⟨((not_found_passed_through (fixedService ([], 0, some .ErrRecordNotFound) false) wishRequest
      freshWorld).1 7 rfl).1 rfl,
   ((not_found_passed_through (fixedService ([], 0, some (.other "connection refused")) false)
      wishRequest freshWorld).1 7 rfl).2.2.2.2.2 _ rfl (by decide),
   ((not_found_passed_through (fixedService ([], 0, some .ErrRecordNotFound) false)
      requestByAlice freshWorld).2 alicesProduct rfl rfl).1 rfl⟩

/-- C4, as the code has it: `DeleteProduct` never answers 403.  With an integer `productId` it
makes one service call, `DeleteProduct` with the actor's `userId` and the `productId`, and
answers 404 for the record-not-found error, 400 for any other error and 200 for none; the store
after the request is the store that call leaves.  With a `productId` that is no integer it
answers 400 and leaves the world as it was. -/
theorem deleteProduct_delegates {σ : Type} (svc : ProductService σ) (c : Context)
    (w : World σ) :
    (DeleteProduct svc c w).1.status ≠ some 403 ∧
    (∀ productId, Atoi (c.Param "productId") = .ok productId →
      (DeleteProduct svc c w).2 =
        { store := (svc.DeleteProduct (c.Param "userId") productId w.store).2,
          calls := w.calls ++ [.DeleteProduct (c.Param "userId") productId] } ∧
      ((svc.DeleteProduct (c.Param "userId") productId w.store).1 = some .ErrRecordNotFound →
          (DeleteProduct svc c w).1 = .wrote 404 .empty) ∧
      (∀ e, (svc.DeleteProduct (c.Param "userId") productId w.store).1 = some e →
          e ≠ .ErrRecordNotFound → (DeleteProduct svc c w).1 = .wrote 400 (.message e)) ∧
      ((svc.DeleteProduct (c.Param "userId") productId w.store).1 = none →
          (DeleteProduct svc c w).1 = .wrote 200 .empty)) ∧
    (∀ e, Atoi (c.Param "productId") = .error e →
      DeleteProduct svc c w = (.wrote 400 (.message e), w)) := by
  refine ⟨?_, ?_, ?_⟩
  · simp only [DeleteProduct, World.invoke]
    rcases Atoi (c.Param "productId") with e | productId
    · simp [Outcome.status]
    · simp only
      rcases (svc.DeleteProduct (c.Param "userId") productId w.store).1 with _ | e
      · simp [Outcome.status]
      · by_cases hnf : e = .ErrRecordNotFound <;> simp [Outcome.status, hnf]
  · intro productId hid
    simp only [DeleteProduct, hid, World.invoke]
    generalize svc.DeleteProduct (c.Param "userId") productId w.store = r
    rcases r with ⟨err, s⟩
    rcases err with _ | e
    · simp
    · by_cases hnf : e = .ErrRecordNotFound <;> simp [hnf]
  · intro e he
    simp [DeleteProduct, he]

/-- Witness of C4 as amended: `bob` deleting product 7 with a service that finds nothing to
delete for him is answered 404, after one service call with his identifier. -/
theorem deleteProduct_delegates_witness :
    (DeleteProduct (fixedService ([], 0, some .ErrRecordNotFound) false) requestByBob
      freshWorld).2 = { store := 1, calls := [.DeleteProduct "bob" 7] } ∧
    (DeleteProduct (fixedService ([], 0, some .ErrRecordNotFound) false) requestByBob
      freshWorld).1 = .wrote 404 .empty :=
  ⟨((deleteProduct_delegates (fixedService ([], 0, some .ErrRecordNotFound) false) requestByBob
      freshWorld).2.1 7 rfl).1,
   ((deleteProduct_delegates (fixedService ([], 0, some .ErrRecordNotFound) false) requestByBob
      freshWorld).2.1 7 rfl).2.1 rfl⟩

/-- Counterexample to C4: `bob` asks to delete product 7, which the store holds as owned by
`alice`; whatever the service does, the response is not 403. -/
theorem deleteProduct_forbidden_counterexample :
    alicesProduct.UserID ≠ requestByBob.Param "userId" ∧
    ∀ svc : ProductService (List Product),
      (DeleteProduct svc requestByBob { store := [alicesProduct], calls := [] }).1.status
        ≠ some 403 := by
  refine ⟨by decide, fun svc => ?_⟩
  have hid : Atoi (requestByBob.Param "productId") = .ok 7 := rfl
  simp only [DeleteProduct, hid, World.invoke]
  rcases (svc.DeleteProduct (requestByBob.Param "userId") 7 [alicesProduct]).1 with _ | e
  · simp [Outcome.status]
  · by_cases hnf : e = .ErrRecordNotFound <;> simp [Outcome.status, hnf]

/-! ### The listing handlers: shared lemmas -/

/-- Under which key an entry of a four-entry map is found. -/
theorem mapIndex_four {φ : Type} (a b d e : Option (Closure φ)) (key : String) :
    mapIndex [("price", a), ("pricedesc", b), ("id", d), ("iddesc", e)] key =
      if key = "price" then a else if key = "pricedesc" then b
      else if key = "id" then d else if key = "iddesc" then e else none := by
  by_cases h1 : key = "price"
  · subst h1; rfl
  by_cases h2 : key = "pricedesc"
  · subst h2; rfl
  by_cases h3 : key = "id"
  · subst h3; rfl
  by_cases h4 : key = "iddesc"
  · subst h4; rfl
  have e1 : (key == "price") = false := by simpa using h1
  have e2 : (key == "pricedesc") = false := by simpa using h2
  have e3 : (key == "id") = false := by simpa using h3
  have e4 : (key == "iddesc") = false := by simpa using h4
  simp [mapIndex, List.lookup, e1, e2, e3, e4, h1, h2, h3, h4]

/-- The choice made on a map whose four entries are function values. -/
theorem selectFunc_four {φ : Type} (a b d e : Closure φ) (sort : Option String) :
    selectFunc [("price", some a), ("pricedesc", some b), ("id", some d), ("iddesc", some e)]
        sort =
      some (if sort = some "price" then a else if sort = some "pricedesc" then b
        else if sort = some "id" then d else e) := by
  rcases sort with _ | key
  · simp [selectFunc, mapIndex_four]
  · simp only [selectFunc, mapIndex_four, Option.some.injEq]
    by_cases h1 : key = "price"
    · simp [h1]
    by_cases h2 : key = "pricedesc"
    · simp [h2]
    by_cases h3 : key = "id"
    · simp [h3]
    by_cases h4 : key = "iddesc"
    · simp [h4]
    simp [h1, h2, h3, h4]

/-- The map literal of `GetProducts` logs its four service calls. -/
theorem getProductsFuncMap_calls {σ : Type} (svc : ProductService σ) (w : World σ) :
    (getProductsFuncMap svc w).2.calls = w.calls ++ productsFactoryCalls := by
  simp [getProductsFuncMap, World.obtain, World.invoke, productsFactoryCalls]

/-- The map literal of `GetUserProducts` logs its four service calls. -/
theorem getUserProductsFuncMap_calls {σ : Type} (svc : ProductService σ) (w : World σ) :
    (getUserProductsFuncMap svc w).2.calls = w.calls ++ userProductsFactoryCalls := by
  simp [getUserProductsFuncMap, World.obtain, World.invoke, userProductsFactoryCalls]

/-- With a service that hands back no nil function, `GetProducts` picks a function value, and
the one the `sort` value names. -/
theorem selectFunc_products {σ : Type} (svc : ProductService σ) (w : World σ)
    (hnil : svc.FuncsNonNil) (sort : Option String) :
    ∃ g, selectFunc (getProductsFuncMap svc w).1 sort = some g ∧
      g.origin =
        (if sort = some "price" then Factory.GetProductsOrderByPrice true
         else if sort = some "pricedesc" then Factory.GetProductsOrderByPrice false
         else if sort = some "id" then Factory.GetProductsOrderByID true
         else Factory.GetProductsOrderByID false) := by
  simp only [getProductsFuncMap, World.obtain, World.invoke]
  generalize h1 : svc.GetProductsOrderByPrice true w.store = r1
  have n1 := (hnil true w.store).1
  rw [h1] at n1
  generalize h2 : svc.GetProductsOrderByPrice false r1.2 = r2
  have n2 := (hnil false r1.2).1
  rw [h2] at n2
  generalize h3 : svc.GetProductsOrderByID true r2.2 = r3
  have n3 := (hnil true r2.2).2.1
  rw [h3] at n3
  generalize h4 : svc.GetProductsOrderByID false r3.2 = r4
  have n4 := (hnil false r3.2).2.1
  rw [h4] at n4
  obtain ⟨f1, e1⟩ := Option.isSome_iff_exists.mp n1
  obtain ⟨f2, e2⟩ := Option.isSome_iff_exists.mp n2
  obtain ⟨f3, e3⟩ := Option.isSome_iff_exists.mp n3
  obtain ⟨f4, e4⟩ := Option.isSome_iff_exists.mp n4
  simp only [e1, e2, e3, e4, Option.map_some', selectFunc_four]
  refine ⟨_, rfl, ?_⟩
  split_ifs <;> rfl

/-- With a service that hands back no nil function, `GetUserProducts` picks a function value,
and the one the `sort` value names. -/
theorem selectFunc_userProducts {σ : Type} (svc : ProductService σ) (w : World σ)
    (hnil : svc.FuncsNonNil) (sort : Option String) :
    ∃ g, selectFunc (getUserProductsFuncMap svc w).1 sort = some g ∧
      g.origin =
        (if sort = some "price" then Factory.GetUserProductsOrderByPrice true
         else if sort = some "pricedesc" then Factory.GetUserProductsOrderByPrice false
         else if sort = some "id" then Factory.GetUserProductsOrderByID true
         else Factory.GetUserProductsOrderByID false) := by
  simp only [getUserProductsFuncMap, World.obtain, World.invoke]
  generalize h1 : svc.GetUserProductsOrderByPrice true w.store = r1
  have n1 := (hnil true w.store).2.2.1
  rw [h1] at n1
  generalize h2 : svc.GetUserProductsOrderByPrice false r1.2 = r2
  have n2 := (hnil false r1.2).2.2.1
  rw [h2] at n2
  generalize h3 : svc.GetUserProductsOrderByID true r2.2 = r3
  have n3 := (hnil true r2.2).2.2.2
  rw [h3] at n3
  generalize h4 : svc.GetUserProductsOrderByID false r3.2 = r4
  have n4 := (hnil false r3.2).2.2.2
  rw [h4] at n4
  obtain ⟨f1, e1⟩ := Option.isSome_iff_exists.mp n1
  obtain ⟨f2, e2⟩ := Option.isSome_iff_exists.mp n2
  obtain ⟨f3, e3⟩ := Option.isSome_iff_exists.mp n3
  obtain ⟨f4, e4⟩ := Option.isSome_iff_exists.mp n4
  simp only [e1, e2, e3, e4, Option.map_some', selectFunc_four]
  refine ⟨_, rfl, ?_⟩
  split_ifs <;> rfl

/-- What `GetProducts` does once the parameters are decoded and a function value is picked. -/
theorem GetProducts_of_selected {σ : Type} (svc : ProductService σ) (c : Context)
    (w : World σ) (size : Int) (category last : Option Int)
    (g : Closure (GetProductsFunc σ))
    (hsize : Atoi (c.DefaultQuery "size" "10") = .ok size)
    (hcat : queryInt c "category" = .ok category) (hlast : queryInt c "last" = .ok last)
    (hg : selectFunc (getProductsFuncMap svc w).1 (c.GetQuery "sort") = some g) :
    GetProducts svc c w =
      ((match (g.run (c.GetQuery "keyword") category last size
            (getProductsFuncMap svc w).2.store).1.2.2 with
        | some err => Outcome.wrote 400 (.message err)
        | none => Outcome.wrote 200 (.products size
            (g.run (c.GetQuery "keyword") category last size
              (getProductsFuncMap svc w).2.store).1.1)),
       { store := (g.run (c.GetQuery "keyword") category last size
            (getProductsFuncMap svc w).2.store).2,
         calls := w.calls ++ productsFactoryCalls ++
            [.GetProductsFunc g.origin (c.GetQuery "keyword") category last size] }) := by
  simp only [GetProducts, hsize, hcat, hlast, hg, callGetProductsFunc, World.invoke,
    getProductsFuncMap_calls]
  split <;> rfl

/-- What `GetUserProducts` does once the parameters are decoded and a function value is
picked. -/
theorem GetUserProducts_of_selected {σ : Type} (svc : ProductService σ) (c : Context)
    (w : World σ) (size : Int) (last : Option Int)
    (g : Closure (GetUserProductsFunc σ))
    (hlast : queryInt c "last" = .ok last)
    (hsize : Atoi (c.DefaultQuery "size" "10") = .ok size)
    (hg : selectFunc (getUserProductsFuncMap svc w).1 (c.GetQuery "sort") = some g) :
    GetUserProducts svc c w =
      ((match (g.run (c.Param "userId") last size
            (getUserProductsFuncMap svc w).2.store).1.2.2 with
        | some err =>
          if err = .ErrRecordNotFound then Outcome.wrote 404 .empty
          else Outcome.wrote 400 (.message err)
        | none => Outcome.wrote 200 (.userProducts size (c.Param "userId")
            (g.run (c.Param "userId") last size (getUserProductsFuncMap svc w).2.store).1.1)),
       { store := (g.run (c.Param "userId") last size
            (getUserProductsFuncMap svc w).2.store).2,
         calls := w.calls ++ userProductsFactoryCalls ++
            [.GetUserProductsFunc g.origin (c.Param "userId") last size] }) := by
  simp only [GetUserProducts, hsize, hlast, hg, callGetUserProductsFunc, World.invoke,
    getUserProductsFuncMap_calls]
  split
  · split <;> rfl
  · rfl

/-- What `GetProducts` does with a service that hands back no nil function, once the parameters
are decoded: it runs the function the service returned for the `sort` value, on the decoded
arguments, in the store the four calls of the map literal left. -/
theorem GetProducts_run {σ : Type} (svc : ProductService σ) (c : Context) (w : World σ)
    (hnil : svc.FuncsNonNil) (size : Int) (category last : Option Int)
    (hsize : Atoi (c.DefaultQuery "size" "10") = .ok size)
    (hcat : queryInt c "category" = .ok category) (hlast : queryInt c "last" = .ok last) :
    let r1 := svc.GetProductsOrderByPrice true w.store
    let r2 := svc.GetProductsOrderByPrice false r1.2
    let r3 := svc.GetProductsOrderByID true r2.2
    let r4 := svc.GetProductsOrderByID false r3.2
    ∃ f,
      (if c.GetQuery "sort" = some "price" then r1.1
       else if c.GetQuery "sort" = some "pricedesc" then r2.1
       else if c.GetQuery "sort" = some "id" then r3.1
       else r4.1) = some f ∧
      GetProducts svc c w =
        ((match (f (c.GetQuery "keyword") category last size r4.2).1.2.2 with
          | some err => Outcome.wrote 400 (.message err)
          | none => Outcome.wrote 200 (.products size
              (f (c.GetQuery "keyword") category last size r4.2).1.1)),
         { store := (f (c.GetQuery "keyword") category last size r4.2).2,
           calls := w.calls ++ productsFactoryCalls ++
            [.GetProductsFunc
              (if c.GetQuery "sort" = some "price" then .GetProductsOrderByPrice true
               else if c.GetQuery "sort" = some "pricedesc" then .GetProductsOrderByPrice false
               else if c.GetQuery "sort" = some "id" then .GetProductsOrderByID true
               else .GetProductsOrderByID false)
              (c.GetQuery "keyword") category last size] }) := by
  intro r1 r2 r3 r4
  obtain ⟨f1, e1⟩ := Option.isSome_iff_exists.mp (hnil true w.store).1
  obtain ⟨f2, e2⟩ := Option.isSome_iff_exists.mp (hnil false r1.2).1
  obtain ⟨f3, e3⟩ := Option.isSome_iff_exists.mp (hnil true r2.2).2.1
  obtain ⟨f4, e4⟩ := Option.isSome_iff_exists.mp (hnil false r3.2).2.1
  have hm : (getProductsFuncMap svc w).1 =
      [("price", some { origin := .GetProductsOrderByPrice true, run := f1 }),
       ("pricedesc", some { origin := .GetProductsOrderByPrice false, run := f2 }),
       ("id", some { origin := .GetProductsOrderByID true, run := f3 }),
       ("iddesc", some { origin := .GetProductsOrderByID false, run := f4 })] := by
    simp only [getProductsFuncMap, World.obtain, World.invoke]
    rw [e1, e2, e3, e4]
    rfl
  have hs : (getProductsFuncMap svc w).2.store = r4.2 := rfl
  have hg := selectFunc_four
    ({ origin := .GetProductsOrderByPrice true, run := f1 } : Closure (GetProductsFunc σ))
    { origin := .GetProductsOrderByPrice false, run := f2 }
    { origin := .GetProductsOrderByID true, run := f3 }
    { origin := .GetProductsOrderByID false, run := f4 } (c.GetQuery "sort")
  rw [← hm] at hg
  rw [GetProducts_of_selected svc c w size category last _ hsize hcat hlast hg, hs]
  show ∃ f, (if c.GetQuery "sort" = some "price" then r1.1
       else if c.GetQuery "sort" = some "pricedesc" then r2.1
       else if c.GetQuery "sort" = some "id" then r3.1
       else r4.1) = some f ∧ _
  rw [e1, e2, e3, e4]
  by_cases h1 : c.GetQuery "sort" = some "price"
  · exact ⟨f1, by simp [h1], by simp [h1]⟩
  by_cases h2 : c.GetQuery "sort" = some "pricedesc"
  · exact ⟨f2, by simp [h1, h2], by simp [h1, h2]⟩
  by_cases h3 : c.GetQuery "sort" = some "id"
  · exact ⟨f3, by simp [h1, h2, h3], by simp [h1, h2, h3]⟩
  · exact ⟨f4, by simp [h1, h2, h3], by simp [h1, h2, h3]⟩

/-- What `GetUserProducts` does with a service that hands back no nil function, once the
parameters are decoded: it runs the function the service returned for the `sort` value, on the
decoded arguments, in the store the four calls of the map literal left. -/
theorem GetUserProducts_run {σ : Type} (svc : ProductService σ) (c : Context) (w : World σ)
    (hnil : svc.FuncsNonNil) (size : Int) (last : Option Int)
    (hsize : Atoi (c.DefaultQuery "size" "10") = .ok size)
    (hlast : queryInt c "last" = .ok last) :
    let r1 := svc.GetUserProductsOrderByPrice true w.store
    let r2 := svc.GetUserProductsOrderByPrice false r1.2
    let r3 := svc.GetUserProductsOrderByID true r2.2
    let r4 := svc.GetUserProductsOrderByID false r3.2
    ∃ f,
      (if c.GetQuery "sort" = some "price" then r1.1
       else if c.GetQuery "sort" = some "pricedesc" then r2.1
       else if c.GetQuery "sort" = some "id" then r3.1
       else r4.1) = some f ∧
      GetUserProducts svc c w =
        ((match (f (c.Param "userId") last size r4.2).1.2.2 with
          | some err =>
            if err = .ErrRecordNotFound then Outcome.wrote 404 .empty
            else Outcome.wrote 400 (.message err)
          | none => Outcome.wrote 200 (.userProducts size (c.Param "userId")
              (f (c.Param "userId") last size r4.2).1.1)),
         { store := (f (c.Param "userId") last size r4.2).2,
           calls := w.calls ++ userProductsFactoryCalls ++
            [.GetUserProductsFunc
              (if c.GetQuery "sort" = some "price" then .GetUserProductsOrderByPrice true
               else if c.GetQuery "sort" = some "pricedesc" then
                 .GetUserProductsOrderByPrice false
               else if c.GetQuery "sort" = some "id" then .GetUserProductsOrderByID true
               else .GetUserProductsOrderByID false)
              (c.Param "userId") last size] }) := by
  intro r1 r2 r3 r4
  obtain ⟨f1, e1⟩ := Option.isSome_iff_exists.mp (hnil true w.store).2.2.1
  obtain ⟨f2, e2⟩ := Option.isSome_iff_exists.mp (hnil false r1.2).2.2.1
  obtain ⟨f3, e3⟩ := Option.isSome_iff_exists.mp (hnil true r2.2).2.2.2
  obtain ⟨f4, e4⟩ := Option.isSome_iff_exists.mp (hnil false r3.2).2.2.2
  have hm : (getUserProductsFuncMap svc w).1 =
      [("price", some { origin := .GetUserProductsOrderByPrice true, run := f1 }),
       ("pricedesc", some { origin := .GetUserProductsOrderByPrice false, run := f2 }),
       ("id", some { origin := .GetUserProductsOrderByID true, run := f3 }),
       ("iddesc", some { origin := .GetUserProductsOrderByID false, run := f4 })] := by
    simp only [getUserProductsFuncMap, World.obtain, World.invoke]
    rw [e1, e2, e3, e4]
    rfl
  have hs : (getUserProductsFuncMap svc w).2.store = r4.2 := rfl
  have hg := selectFunc_four
    ({ origin := .GetUserProductsOrderByPrice true, run := f1 } :
      Closure (GetUserProductsFunc σ))
    { origin := .GetUserProductsOrderByPrice false, run := f2 }
    { origin := .GetUserProductsOrderByID true, run := f3 }
    { origin := .GetUserProductsOrderByID false, run := f4 } (c.GetQuery "sort")
  rw [← hm] at hg
  rw [GetUserProducts_of_selected svc c w size last _ hlast hsize hg, hs]
  show ∃ f, (if c.GetQuery "sort" = some "price" then r1.1
       else if c.GetQuery "sort" = some "pricedesc" then r2.1
       else if c.GetQuery "sort" = some "id" then r3.1
       else r4.1) = some f ∧ _
  rw [e1, e2, e3, e4]
  by_cases h1 : c.GetQuery "sort" = some "price"
  · exact ⟨f1, by simp [h1], by simp [h1]⟩
  by_cases h2 : c.GetQuery "sort" = some "pricedesc"
  · exact ⟨f2, by simp [h1, h2], by simp [h1, h2]⟩
  by_cases h3 : c.GetQuery "sort" = some "id"
  · exact ⟨f3, by simp [h1, h2, h3], by simp [h1, h2, h3]⟩
  · exact ⟨f4, by simp [h1, h2, h3], by simp [h1, h2, h3]⟩

/-- A parameter that is present and is no integer makes `queryInt` fail. -/
theorem queryInt_error (c : Context) (key str : String) (e : Error)
    (hraw : c.GetQuery key = some str) (hbad : Atoi str = .error e) :
    queryInt c key = .error e := by
  simp [queryInt, hraw, hbad]

/-- The block `queryInt` decodes the way `DecodesTo` asks for. -/
theorem queryInt_of_decodesTo (c : Context) (key : String) (value : Option Int)
    (h : DecodesTo (c.GetQuery key) value) : queryInt c key = .ok value := by
  rcases h with ⟨hraw, hval⟩ | ⟨str, n, hraw, hn, hval⟩
  · simp [queryInt, hraw, hval]
  · simp [queryInt, hraw, hn, hval]

/-- The sample service hands back no nil function. -/
theorem fixedService_funcsNonNil (r : Listing) (found : Bool) :
    (fixedService r found).FuncsNonNil := by
  intro asc s
  simp [fixedService]

/-- The echo service hands back no nil function. -/
theorem echoService_funcsNonNil : echoService.FuncsNonNil := by
  intro asc s
  simp [echoService]

/-! ### The claims about the listing handlers -/

/-- C1: in `GetProducts` and in `GetUserProducts`, once the parameters are decoded, the request
runs exactly one listing function: the one the service returned for order-by-price ascending
when `sort=price`, for order-by-price descending when `sort=pricedesc`, for order-by-identifier
ascending when `sort=id`, and for order-by-identifier descending when `sort=iddesc`, for any
other value and for an absent `sort`.  That function is applied to the decoded
keyword/category/last/size (resp. userId/last/size); the response and the store after the
request are the ones its result gives, and the log is the four service calls of the map literal
followed by that one invocation.  The service is assumed to hand back no nil function. -/
theorem sort_dispatch {σ : Type} (svc : ProductService σ) (c : Context) (w : World σ)
    (hnil : svc.FuncsNonNil) (size : Int) (last : Option Int)
    (hsize : Atoi (c.DefaultQuery "size" "10") = .ok size)
    (hlast : DecodesTo (c.GetQuery "last") last) :
    (∀ category, DecodesTo (c.GetQuery "category") category →
      let r1 := svc.GetProductsOrderByPrice true w.store
      let r2 := svc.GetProductsOrderByPrice false r1.2
      let r3 := svc.GetProductsOrderByID true r2.2
      let r4 := svc.GetProductsOrderByID false r3.2
      ∃ f,
        (if c.GetQuery "sort" = some "price" then r1.1
         else if c.GetQuery "sort" = some "pricedesc" then r2.1
         else if c.GetQuery "sort" = some "id" then r3.1
         else r4.1) = some f ∧
        GetProducts svc c w =
          ((match (f (c.GetQuery "keyword") category last size r4.2).1.2.2 with
            | some err => Outcome.wrote 400 (.message err)
            | none => Outcome.wrote 200 (.products size
                (f (c.GetQuery "keyword") category last size r4.2).1.1)),
           { store := (f (c.GetQuery "keyword") category last size r4.2).2,
             calls := w.calls ++ productsFactoryCalls ++
              [.GetProductsFunc
                (if c.GetQuery "sort" = some "price" then .GetProductsOrderByPrice true
                 else if c.GetQuery "sort" = some "pricedesc" then
                   .GetProductsOrderByPrice false
                 else if c.GetQuery "sort" = some "id" then .GetProductsOrderByID true
                 else .GetProductsOrderByID false)
                (c.GetQuery "keyword") category last size] })) ∧
    (let r1 := svc.GetUserProductsOrderByPrice true w.store
     let r2 := svc.GetUserProductsOrderByPrice false r1.2
     let r3 := svc.GetUserProductsOrderByID true r2.2
     let r4 := svc.GetUserProductsOrderByID false r3.2
     ∃ f,
      (if c.GetQuery "sort" = some "price" then r1.1
       else if c.GetQuery "sort" = some "pricedesc" then r2.1
       else if c.GetQuery "sort" = some "id" then r3.1
       else r4.1) = some f ∧
      GetUserProducts svc c w =
        ((match (f (c.Param "userId") last size r4.2).1.2.2 with
          | some err =>
            if err = .ErrRecordNotFound then Outcome.wrote 404 .empty
            else Outcome.wrote 400 (.message err)
          | none => Outcome.wrote 200 (.userProducts size (c.Param "userId")
              (f (c.Param "userId") last size r4.2).1.1)),
         { store := (f (c.Param "userId") last size r4.2).2,
           calls := w.calls ++ userProductsFactoryCalls ++
            [.GetUserProductsFunc
              (if c.GetQuery "sort" = some "price" then .GetUserProductsOrderByPrice true
               else if c.GetQuery "sort" = some "pricedesc" then
                 .GetUserProductsOrderByPrice false
               else if c.GetQuery "sort" = some "id" then .GetUserProductsOrderByID true
               else .GetUserProductsOrderByID false)
              (c.Param "userId") last size] })) := by
  have hl := queryInt_of_decodesTo c "last" last hlast
  constructor
  · intro category hcat
    exact GetProducts_run svc c w hnil size category last hsize
      (queryInt_of_decodesTo c "category" category hcat) hl
  · exact GetUserProducts_run svc c w hnil size last hsize hl

/-- Witness of C1: with `sort=price`, keyword `bike`, category 3, cursor 40 and size 5 the
price-ascending function of the echo service answers, and it received exactly these arguments;
with `sort=id` the identifier-ascending function answers; with `sort=newest` and no other
parameter the identifier-descending function of the user listing answers, with no cursor and
size 10. -/
theorem sort_dispatch_witness :
    GetProducts echoService listRequest freshWorld =
      (.wrote 200 (.products 5
          [echoProduct "price ascending" "" (some "bike") (some 3) (some 40) 5]),
       { store := 1
         calls := productsFactoryCalls ++
          [.GetProductsFunc (.GetProductsOrderByPrice true) (some "bike") (some 3) (some 40)
            5] }) ∧
    GetProducts echoService idSortRequest freshWorld =
      (.wrote 200 (.products 10 [echoProduct "id ascending" "" none none none 10]),
       { store := 1
         calls := productsFactoryCalls ++
          [.GetProductsFunc (.GetProductsOrderByID true) none none none 10] }) ∧
    GetUserProducts echoService unknownSortRequest freshWorld =
      (.wrote 200 (.userProducts 10 "u1"
          [echoProduct "user id descending" "u1" none none none 10]),
       { store := 1
         calls := userProductsFactoryCalls ++
          [.GetUserProductsFunc (.GetUserProductsOrderByID false) "u1" none 10] }) := by
  refine ⟨?_, ?_, ?_⟩
  · obtain ⟨f, hf, h⟩ := (sort_dispatch echoService listRequest freshWorld
      echoService_funcsNonNil 5 (some 40) rfl (Or.inr ⟨"40", 40, rfl, rfl, rfl⟩)).1
      (some 3) (Or.inr ⟨"3", 3, rfl, rfl, rfl⟩)
    cases Option.some.inj hf
    exact h
  · obtain ⟨f, hf, h⟩ := (sort_dispatch echoService idSortRequest freshWorld
      echoService_funcsNonNil 10 none rfl (Or.inl ⟨rfl, rfl⟩)).1 none (Or.inl ⟨rfl, rfl⟩)
    cases Option.some.inj hf
    exact h
  · obtain ⟨f, hf, h⟩ := (sort_dispatch echoService unknownSortRequest freshWorld
      echoService_funcsNonNil 10 none rfl (Or.inl ⟨rfl, rfl⟩)).2
    cases Option.some.inj hf
    exact h

/-- C6: in `GetProducts`, a `size`, `category` or `last` that is present but is no integer is
answered 400 and leaves the world as it was (no service call at all).  Otherwise (the service
handing back no nil function) one of the four listing functions the service returned is run,
on exactly these arguments: the `keyword` as the query holds it (nothing when absent), for
`category` and `last` nothing when the parameter is absent and the integer `n` when its text
parses as `n`, and the parsed size.  The response and the store after the request are the ones
that application gives, and it is the one invocation logged. -/
theorem getProducts_parameters {σ : Type} (svc : ProductService σ) (c : Context)
    (w : World σ) :
    (∀ str e, (c.GetQuery "size" = some str ∨ c.GetQuery "category" = some str ∨
          c.GetQuery "last" = some str) →
        Atoi str = .error e →
        (GetProducts svc c w).1.status = some 400 ∧ (GetProducts svc c w).2 = w) ∧
    (svc.FuncsNonNil → ∀ size category last,
        Atoi (c.DefaultQuery "size" "10") = .ok size →
        DecodesTo (c.GetQuery "category") category →
        DecodesTo (c.GetQuery "last") last →
        let r1 := svc.GetProductsOrderByPrice true w.store
        let r2 := svc.GetProductsOrderByPrice false r1.2
        let r3 := svc.GetProductsOrderByID true r2.2
        let r4 := svc.GetProductsOrderByID false r3.2
        ∃ f origin,
          (r1.1 = some f ∨ r2.1 = some f ∨ r3.1 = some f ∨ r4.1 = some f) ∧
          GetProducts svc c w =
            ((match (f (c.GetQuery "keyword") category last size r4.2).1.2.2 with
              | some err => Outcome.wrote 400 (.message err)
              | none => Outcome.wrote 200 (.products size
                  (f (c.GetQuery "keyword") category last size r4.2).1.1)),
             { store := (f (c.GetQuery "keyword") category last size r4.2).2,
               calls := w.calls ++ productsFactoryCalls ++
                [.GetProductsFunc origin (c.GetQuery "keyword") category last size] })) := by
  constructor
  · intro str e hraw hbad
    simp only [GetProducts]
    rcases hsize : Atoi (c.DefaultQuery "size" "10") with e1 | size
    · simp [Outcome.status]
    rcases hcat : queryInt c "category" with e2 | category
    · simp [Outcome.status]
    rcases hlast : queryInt c "last" with e3 | last
    · simp [Outcome.status]
    exfalso
    rcases hraw with h | h | h
    · simp [Context.DefaultQuery, h, hbad] at hsize
    · rw [queryInt_error c "category" str e h hbad] at hcat
      cases hcat
    · rw [queryInt_error c "last" str e h hbad] at hlast
      cases hlast
  · intro hnil size category last hsize hcat hlast r1 r2 r3 r4
    obtain ⟨f, hf, h⟩ := GetProducts_run svc c w hnil size category last hsize
      (queryInt_of_decodesTo c "category" category hcat)
      (queryInt_of_decodesTo c "last" last hlast)
    refine ⟨f, _, ?_, h⟩
    revert hf
    split_ifs
    · exact fun hf => Or.inl hf
    · exact fun hf => Or.inr (Or.inl hf)
    · exact fun hf => Or.inr (Or.inr (Or.inl hf))
    · exact fun hf => Or.inr (Or.inr (Or.inr hf))

/-- Witness of C6: a cursor `abc` is answered 400 with no service call; the full request makes
the echo service answer with keyword `bike`, category 3, cursor 40 and size 5 as the
arguments it received; the bare request with no keyword, no category, no cursor and size
10. -/
theorem getProducts_parameters_witness :
    ((GetProducts echoService badCursorRequest freshWorld).1.status = some 400 ∧
      (GetProducts echoService badCursorRequest freshWorld).2 = freshWorld) ∧
    (∃ label, (GetProducts echoService listRequest freshWorld).1 =
      .wrote 200 (.products 5 [echoProduct label "" (some "bike") (some 3) (some 40) 5])) ∧
    (∃ label, (GetProducts echoService bareListRequest freshWorld).1 =
      .wrote 200 (.products 10 [echoProduct label "" none none none 10])) := by
  refine ⟨(getProducts_parameters echoService badCursorRequest freshWorld).1 "abc"
      (.ErrSyntax "abc") (Or.inr (Or.inr rfl)) rfl, ?_, ?_⟩
  · obtain ⟨f, origin, hf, h⟩ := (getProducts_parameters echoService listRequest
      freshWorld).2 echoService_funcsNonNil 5 (some 3) (some 40) rfl
      (Or.inr ⟨"3", 3, rfl, rfl, rfl⟩) (Or.inr ⟨"40", 40, rfl, rfl, rfl⟩)
    rw [h]
    rcases hf with hf | hf | hf | hf <;> cases Option.some.inj hf <;> exact ⟨_, rfl⟩
  · obtain ⟨f, origin, hf, h⟩ := (getProducts_parameters echoService bareListRequest
      freshWorld).2 echoService_funcsNonNil 10 none none rfl
      (Or.inl ⟨rfl, rfl⟩) (Or.inl ⟨rfl, rfl⟩)
    rw [h]
    rcases hf with hf | hf | hf | hf <;> cases Option.some.inj hf <;> exact ⟨_, rfl⟩

/-- Counterexample to C7: `GetProducts` with `size=0` is not rejected; the listing function is
invoked with size 0 and, as it reports no error, the response is 200 with size 0.  The same
holds for `GetUserProducts` and `GetWishProducts`. -/
theorem nonpositive_size_counterexample :
    zeroSizeRequest.GetQuery "size" = some "0" ∧ Atoi "0" = .ok 0 ∧
    GetProducts (fixedService ([], 0, none) false) zeroSizeRequest freshWorld =
      (.wrote 200 (.products 0 []),
       { store := 1
         calls := productsFactoryCalls ++
          [.GetProductsFunc (.GetProductsOrderByID false) none none none 0] }) ∧
    GetUserProducts (fixedService ([], 0, none) false) zeroSizeRequest freshWorld =
      (.wrote 200 (.userProducts 0 "u1" []),
       { store := 1
         calls := userProductsFactoryCalls ++
          [.GetUserProductsFunc (.GetUserProductsOrderByID false) "u1" none 0] }) ∧
    GetWishProducts (fixedService ([], 0, none) false) zeroSizeRequest freshWorld =
      (.wrote 200 (.userProducts 0 "u1" []),
       { store := 1, calls := [.GetWishProducts "u1" none 0] }) :=
  ⟨rfl, rfl, rfl, rfl, rfl⟩

/-- C7, as the code has it: a listing request whose explicit `size` parses as an integer that is
zero or negative is not rejected by the controller.  When the cursor parses, `GetWishProducts`
invokes the service's listing with that size; so do `GetUserProducts` and (when the category
parses) `GetProducts` with the function value they picked, the service handing back no nil
function.  When the listing reports no error the response is 200 and carries that size. -/
theorem nonpositive_size_passed_on {σ : Type} (svc : ProductService σ) (c : Context)
    (w : World σ) (str : String) (size : Int) (last : Option Int)
    (hraw : c.GetQuery "size" = some str) (hsize : Atoi str = .ok size) (_hle : size ≤ 0)
    (hlast : queryInt c "last" = .ok last) :
    ((GetWishProducts svc c w).2.calls
        = w.calls ++ [.GetWishProducts (c.Param "userId") last size] ∧
      ((svc.GetWishProducts (c.Param "userId") last size w.store).1.2.2 = none →
        (GetWishProducts svc c w).1 = .wrote 200 (.userProducts size (c.Param "userId")
          (svc.GetWishProducts (c.Param "userId") last size w.store).1.1))) ∧
    (svc.FuncsNonNil →
      (∃ g, selectFunc (getUserProductsFuncMap svc w).1 (c.GetQuery "sort") = some g ∧
        (GetUserProducts svc c w).2.calls = w.calls ++ userProductsFactoryCalls ++
          [.GetUserProductsFunc g.origin (c.Param "userId") last size] ∧
        ((g.run (c.Param "userId") last size
            (getUserProductsFuncMap svc w).2.store).1.2.2 = none →
          (GetUserProducts svc c w).1 = .wrote 200 (.userProducts size (c.Param "userId")
            (g.run (c.Param "userId") last size
              (getUserProductsFuncMap svc w).2.store).1.1))) ∧
      (∀ category, queryInt c "category" = .ok category →
        ∃ g, selectFunc (getProductsFuncMap svc w).1 (c.GetQuery "sort") = some g ∧
          (GetProducts svc c w).2.calls = w.calls ++ productsFactoryCalls ++
            [.GetProductsFunc g.origin (c.GetQuery "keyword") category last size] ∧
          ((g.run (c.GetQuery "keyword") category last size
              (getProductsFuncMap svc w).2.store).1.2.2 = none →
            (GetProducts svc c w).1 = .wrote 200 (.products size
              (g.run (c.GetQuery "keyword") category last size
                (getProductsFuncMap svc w).2.store).1.1)))) := by
  have hdef : Atoi (c.DefaultQuery "size" "10") = .ok size := by
    simp [Context.DefaultQuery, hraw, hsize]
  refine ⟨⟨?_, ?_⟩, fun hnil => ⟨?_, ?_⟩⟩
  · simp only [GetWishProducts, hlast, hdef, World.invoke]
    split <;> rfl
  · intro herr
    simp only [GetWishProducts, hlast, hdef, World.invoke, herr]
  · obtain ⟨g, hg, _⟩ := selectFunc_userProducts svc w hnil (c.GetQuery "sort")
    refine ⟨g, hg, ?_, ?_⟩
    · rw [GetUserProducts_of_selected svc c w size last g hlast hdef hg]
    · intro herr
      rw [GetUserProducts_of_selected svc c w size last g hlast hdef hg]
      simp only [herr]
  · intro category hcat
    obtain ⟨g, hg, _⟩ := selectFunc_products svc w hnil (c.GetQuery "sort")
    refine ⟨g, hg, ?_, ?_⟩
    · rw [GetProducts_of_selected svc c w size category last g hdef hcat hlast hg]
    · intro herr
      rw [GetProducts_of_selected svc c w size category last g hdef hcat hlast hg]
      simp only [herr]

/-- Witness of C7 as amended: the wish listing with `size=0`. -/
theorem nonpositive_size_passed_on_witness :
    (GetWishProducts (fixedService (threeProducts, 3, none) false) zeroSizeRequest
        freshWorld).2.calls = freshWorld.calls ++ [.GetWishProducts "u1" none 0] ∧
    (GetWishProducts (fixedService (threeProducts, 3, none) false) zeroSizeRequest
        freshWorld).1 = .wrote 200 (.userProducts 0 "u1" threeProducts) :=
  ⟨((nonpositive_size_passed_on (fixedService (threeProducts, 3, none) false) zeroSizeRequest
      freshWorld "0" 0 none rfl rfl (by decide) rfl).1).1,
   ((nonpositive_size_passed_on (fixedService (threeProducts, 3, none) false) zeroSizeRequest
      freshWorld "0" 0 none rfl rfl (by decide) rfl).1).2 rfl⟩

/-- The size a request asks for: 10 without a `size` parameter, the parsed integer with one. -/
theorem requested_size (c : Context) (size : Int)
    (hsize : Atoi (c.DefaultQuery "size" "10") = .ok size) :
    (c.GetQuery "size" = none ∧ size = 10) ∨
      (∃ str, c.GetQuery "size" = some str ∧ Atoi str = .ok size) := by
  rcases hraw : c.GetQuery "size" with _ | str
  · left
    simp only [Context.DefaultQuery, hraw] at hsize
    have h10 : Atoi "10" = .ok 10 := rfl
    rw [h10] at hsize
    injection hsize with h
    exact ⟨rfl, h.symm⟩
  · right
    simp only [Context.DefaultQuery, hraw] at hsize
    exact ⟨str, rfl, hsize⟩

/-- A response of `GetProducts` with status 200 or 404 comes from a decoded request and a picked
function value. -/
theorem GetProducts_answered {σ : Type} (svc : ProductService σ) (c : Context) (w : World σ)
    (h : (GetProducts svc c w).1.status = some 200 ∨ (GetProducts svc c w).1.status = some 404) :
    ∃ size category last g, Atoi (c.DefaultQuery "size" "10") = .ok size ∧
      queryInt c "category" = .ok category ∧ queryInt c "last" = .ok last ∧
      selectFunc (getProductsFuncMap svc w).1 (c.GetQuery "sort") = some g := by
  simp only [GetProducts] at h
  rcases hsize : Atoi (c.DefaultQuery "size" "10") with e1 | size
  · simp [hsize, Outcome.status] at h
  rcases hcat : queryInt c "category" with e2 | category
  · simp [hsize, hcat, Outcome.status] at h
  rcases hlast : queryInt c "last" with e3 | last
  · simp [hsize, hcat, hlast, Outcome.status] at h
  rcases hg : selectFunc (getProductsFuncMap svc w).1 (c.GetQuery "sort") with _ | g
  · simp [hsize, hcat, hlast, hg, callGetProductsFunc, Outcome.status] at h
  · exact ⟨size, category, last, g, rfl, rfl, rfl, rfl⟩

/-- A response of `GetUserProducts` with status 200 or 404 comes from a decoded request and a
picked function value. -/
theorem GetUserProducts_answered {σ : Type} (svc : ProductService σ) (c : Context)
    (w : World σ)
    (h : (GetUserProducts svc c w).1.status = some 200 ∨
      (GetUserProducts svc c w).1.status = some 404) :
    ∃ size last g, Atoi (c.DefaultQuery "size" "10") = .ok size ∧
      queryInt c "last" = .ok last ∧
      selectFunc (getUserProductsFuncMap svc w).1 (c.GetQuery "sort") = some g := by
  simp only [GetUserProducts] at h
  rcases hlast : queryInt c "last" with e3 | last
  · simp [hlast, Outcome.status] at h
  rcases hsize : Atoi (c.DefaultQuery "size" "10") with e1 | size
  · simp [hsize, hlast, Outcome.status] at h
  rcases hg : selectFunc (getUserProductsFuncMap svc w).1 (c.GetQuery "sort") with _ | g
  · simp [hsize, hlast, hg, callGetUserProductsFunc, Outcome.status] at h
  · exact ⟨size, last, g, rfl, rfl, rfl⟩

/-- A response of `GetWishProducts` with status 200 or 404 comes from a decoded request. -/
theorem GetWishProducts_answered {σ : Type} (svc : ProductService σ) (c : Context)
    (w : World σ)
    (h : (GetWishProducts svc c w).1.status = some 200 ∨
      (GetWishProducts svc c w).1.status = some 404) :
    ∃ size last, Atoi (c.DefaultQuery "size" "10") = .ok size ∧
      queryInt c "last" = .ok last := by
  simp only [GetWishProducts] at h
  rcases hlast : queryInt c "last" with e3 | last
  · simp [hlast, Outcome.status] at h
  rcases hsize : Atoi (c.DefaultQuery "size" "10") with e1 | size
  · simp [hsize, hlast, Outcome.status] at h
  · exact ⟨size, last, rfl, rfl⟩

/-- What `GetWishProducts` does once the parameters are decoded. -/
theorem GetWishProducts_of_decoded {σ : Type} (svc : ProductService σ) (c : Context)
    (w : World σ) (size : Int) (last : Option Int)
    (hlast : queryInt c "last" = .ok last)
    (hsize : Atoi (c.DefaultQuery "size" "10") = .ok size) :
    (GetWishProducts svc c w).1 =
      match (svc.GetWishProducts (c.Param "userId") last size w.store).1.2.2 with
      | some err => Outcome.wrote 400 (.message err)
      | none => Outcome.wrote 200 (.userProducts size (c.Param "userId")
          (svc.GetWishProducts (c.Param "userId") last size w.store).1.1) := by
  simp only [GetWishProducts, hlast, hsize, World.invoke]
  split <;> simp [*]

/-- Counterexample to C5: when the listing function reports the record-not-found error,
`GetUserProducts` answers 404. -/
theorem listing_not_found_counterexample :
    (GetUserProducts (fixedService ([], 0, some .ErrRecordNotFound) false) bareListRequest
      freshWorld).1 = .wrote 404 .empty ∧
    (GetUserProducts (fixedService ([], 0, some .ErrRecordNotFound) false) bareListRequest
      freshWorld).1.status = some 404 :=
  ⟨rfl, rfl⟩

/-- C5, as the code has it: `GetProducts` and `GetWishProducts` never answer 404, whatever the
service reports; `GetUserProducts` answers 404 exactly when the listing function it invoked
reports the record-not-found error.  In all three, a listing that comes back with no product and
no error is answered 200 with an empty product sequence. -/
theorem listing_not_found {σ : Type} (svc : ProductService σ) (c : Context) (w : World σ) :
    (GetProducts svc c w).1.status ≠ some 404 ∧
    (GetWishProducts svc c w).1.status ≠ some 404 ∧
    ((GetUserProducts svc c w).1.status = some 404 ↔
      ∃ size last g, Atoi (c.DefaultQuery "size" "10") = .ok size ∧
        queryInt c "last" = .ok last ∧
        selectFunc (getUserProductsFuncMap svc w).1 (c.GetQuery "sort") = some g ∧
        (g.run (c.Param "userId") last size (getUserProductsFuncMap svc w).2.store).1.2.2
          = some .ErrRecordNotFound) ∧
    (∀ size category last g n, Atoi (c.DefaultQuery "size" "10") = .ok size →
      queryInt c "category" = .ok category → queryInt c "last" = .ok last →
      selectFunc (getProductsFuncMap svc w).1 (c.GetQuery "sort") = some g →
      (g.run (c.GetQuery "keyword") category last size (getProductsFuncMap svc w).2.store).1
        = ([], n, none) →
      (GetProducts svc c w).1 = .wrote 200 (.products size [])) ∧
    (∀ size last g n, Atoi (c.DefaultQuery "size" "10") = .ok size →
      queryInt c "last" = .ok last →
      selectFunc (getUserProductsFuncMap svc w).1 (c.GetQuery "sort") = some g →
      (g.run (c.Param "userId") last size (getUserProductsFuncMap svc w).2.store).1
        = ([], n, none) →
      (GetUserProducts svc c w).1 = .wrote 200 (.userProducts size (c.Param "userId") [])) ∧
    (∀ size last n, Atoi (c.DefaultQuery "size" "10") = .ok size →
      queryInt c "last" = .ok last →
      (svc.GetWishProducts (c.Param "userId") last size w.store).1 = ([], n, none) →
      (GetWishProducts svc c w).1 = .wrote 200 (.userProducts size (c.Param "userId") [])) := by
  refine ⟨?_, ?_, ⟨?_, ?_⟩, ?_, ?_, ?_⟩
  · intro h
    obtain ⟨size, category, last, g, hsize, hcat, hlast, hg⟩ :=
      GetProducts_answered svc c w (Or.inr h)
    rw [GetProducts_of_selected svc c w size category last g hsize hcat hlast hg] at h
    revert h
    simp only
    split <;> simp [Outcome.status]
  · intro h
    obtain ⟨size, last, hsize, hlast⟩ := GetWishProducts_answered svc c w (Or.inr h)
    rw [GetWishProducts_of_decoded svc c w size last hlast hsize] at h
    revert h
    split <;> simp [Outcome.status]
  · intro h
    obtain ⟨size, last, g, hsize, hlast, hg⟩ := GetUserProducts_answered svc c w (Or.inr h)
    refine ⟨size, last, g, hsize, hlast, hg, ?_⟩
    rw [GetUserProducts_of_selected svc c w size last g hlast hsize hg] at h
    revert h
    simp only
    split
    · rename_i err herr
      by_cases hnf : err = .ErrRecordNotFound
      · intro _
        rw [herr, hnf]
      · simp [hnf, Outcome.status]
    · simp [Outcome.status]
  · rintro ⟨size, last, g, hsize, hlast, hg, herr⟩
    rw [GetUserProducts_of_selected svc c w size last g hlast hsize hg]
    simp [herr, Outcome.status]
  · intro size category last g n hsize hcat hlast hg hr
    rw [GetProducts_of_selected svc c w size category last g hsize hcat hlast hg]
    simp [hr]
  · intro size last g n hsize hlast hg hr
    rw [GetUserProducts_of_selected svc c w size last g hlast hsize hg]
    simp [hr]
  · intro size last n hsize hlast hr
    rw [GetWishProducts_of_decoded svc c w size last hlast hsize]
    simp [hr]

/-- Witness of C5 as amended: with a service whose listings are empty and report no error, the
wish listing of `u1` is answered 200 with an empty sequence. -/
theorem listing_not_found_witness :
    (GetWishProducts (fixedService ([], 0, none) false) bareListRequest freshWorld).1
      = .wrote 200 (.userProducts 10 "u1" []) :=
  (listing_not_found (fixedService ([], 0, none) false) bareListRequest
    freshWorld).2.2.2.2.2 10 none 0 rfl rfl rfl

/-- C8: a response with status 200 of `GetProducts`, `GetUserProducts` or `GetWishProducts`
carries as `size` the requested size (10 without a `size` parameter, the parsed integer with
one) and as `products` exactly the sequence the invoked listing returned, whatever its length
and whatever size the listing returned. -/
theorem page_size_is_requested_size {σ : Type} (svc : ProductService σ) (c : Context)
    (w : World σ) :
    ((GetProducts svc c w).1.status = some 200 →
      ∃ size category last g,
        ((c.GetQuery "size" = none ∧ size = 10) ∨
          (∃ str, c.GetQuery "size" = some str ∧ Atoi str = .ok size)) ∧
        queryInt c "category" = .ok category ∧ queryInt c "last" = .ok last ∧
        selectFunc (getProductsFuncMap svc w).1 (c.GetQuery "sort") = some g ∧
        (GetProducts svc c w).1 = .wrote 200 (.products size
          (g.run (c.GetQuery "keyword") category last size
            (getProductsFuncMap svc w).2.store).1.1)) ∧
    ((GetUserProducts svc c w).1.status = some 200 →
      ∃ size last g,
        ((c.GetQuery "size" = none ∧ size = 10) ∨
          (∃ str, c.GetQuery "size" = some str ∧ Atoi str = .ok size)) ∧
        queryInt c "last" = .ok last ∧
        selectFunc (getUserProductsFuncMap svc w).1 (c.GetQuery "sort") = some g ∧
        (GetUserProducts svc c w).1 = .wrote 200 (.userProducts size (c.Param "userId")
          (g.run (c.Param "userId") last size (getUserProductsFuncMap svc w).2.store).1.1)) ∧
    ((GetWishProducts svc c w).1.status = some 200 →
      ∃ size last,
        ((c.GetQuery "size" = none ∧ size = 10) ∨
          (∃ str, c.GetQuery "size" = some str ∧ Atoi str = .ok size)) ∧
        queryInt c "last" = .ok last ∧
        (GetWishProducts svc c w).1 = .wrote 200 (.userProducts size (c.Param "userId")
          (svc.GetWishProducts (c.Param "userId") last size w.store).1.1)) := by
  refine ⟨?_, ?_, ?_⟩
  · intro h
    obtain ⟨size, category, last, g, hsize, hcat, hlast, hg⟩ :=
      GetProducts_answered svc c w (Or.inl h)
    refine ⟨size, category, last, g, requested_size c size hsize, hcat, hlast, hg, ?_⟩
    rw [GetProducts_of_selected svc c w size category last g hsize hcat hlast hg] at h ⊢
    revert h
    simp only
    split <;> simp [Outcome.status]
  · intro h
    obtain ⟨size, last, g, hsize, hlast, hg⟩ := GetUserProducts_answered svc c w (Or.inl h)
    refine ⟨size, last, g, requested_size c size hsize, hlast, hg, ?_⟩
    rw [GetUserProducts_of_selected svc c w size last g hlast hsize hg] at h ⊢
    revert h
    simp only
    split
    · split <;> simp [Outcome.status]
    · simp [Outcome.status]
  · intro h
    obtain ⟨size, last, hsize, hlast⟩ := GetWishProducts_answered svc c w (Or.inl h)
    refine ⟨size, last, requested_size c size hsize, hlast, ?_⟩
    rw [GetWishProducts_of_decoded svc c w size last hlast hsize] at h ⊢
    revert h
    split <;> simp [Outcome.status]

/-- Witness of C8: without a `size` parameter and with a service whose listing returns three
products and the size 3, the wish listing is answered 200 with size 10 and the three products;
so is the global listing. -/
theorem page_size_is_requested_size_witness :
    ((GetWishProducts (fixedService (threeProducts, 3, none) false) bareListRequest
        freshWorld).1 = .wrote 200 (.userProducts 10 "u1" threeProducts) ∧
      (GetProducts (fixedService (threeProducts, 3, none) false) bareListRequest
        freshWorld).1 = .wrote 200 (.products 10 threeProducts)) ∧
    ∃ size last,
      ((bareListRequest.GetQuery "size" = none ∧ size = 10) ∨
        (∃ str, bareListRequest.GetQuery "size" = some str ∧ Atoi str = .ok size)) ∧
      queryInt bareListRequest "last" = .ok last ∧
      (GetWishProducts (fixedService (threeProducts, 3, none) false) bareListRequest
        freshWorld).1 = .wrote 200 (.userProducts size (bareListRequest.Param "userId")
          ((fixedService (threeProducts, 3, none) false).GetWishProducts
            (bareListRequest.Param "userId") last size freshWorld.store).1.1) :=
  ⟨⟨rfl, rfl⟩,
   (page_size_is_requested_size (fixedService (threeProducts, 3, none) false) bareListRequest
      freshWorld).2.2 rfl⟩

/-- C10, what the code does: when the form of `InsertProduct` binds and decoding its `json`
field fails, the error is dropped.  The handler goes on to the ownership check with whatever
the decoder left in the product: it answers 403 when that owner differs from the actor, and
otherwise, the files opening, calls the service's `InsertProduct` with that product. -/
theorem insertProduct_decode_error_dropped {σ : Type}
    (jsonUnmarshal : String → Product → Product × Option Error)
    (svc : ProductService σ) (c : Context) (w : World σ) (form : ProductForm) (e : Error)
    (hform : c.ShouldBindForm = .ok form)
    (_hfail : (jsonUnmarshal form.Json {}).2 = some e) :
    ((jsonUnmarshal form.Json {}).1.UserID ≠ c.Param "userId" →
      InsertProduct jsonUnmarshal svc c w = (.wrote 403 .empty, w)) ∧
    ((jsonUnmarshal form.Json {}).1.UserID = c.Param "userId" →
      ∀ files, openFiles form.Files [] = .ok files →
        (InsertProduct jsonUnmarshal svc c w).2.calls =
          w.calls ++ [.InsertProduct files (jsonUnmarshal form.Json {}).1] ∧
        ((svc.InsertProduct files (jsonUnmarshal form.Json {}).1 w.store).1 = (none, none) →
          (InsertProduct jsonUnmarshal svc c w).1 = .wrote 201 .empty)) := by
  constructor
  · intro howner
    simp [InsertProduct, hform, howner]
  · intro howner files hfiles
    simp only [InsertProduct, hform, howner, hfiles, World.invoke]
    constructor
    · simp only [ne_eq, not_true_eq_false, if_false]
      split <;> rfl
    · intro hr
      simp [hr]

/-- Witness of C10: a `json` field that is no JSON document is answered 403, not 400; and a
document that fails to decode after the owner was read reaches the service and is answered
201. -/
theorem insertProduct_decode_error_dropped_witness :
    InsertProduct syntaxErrorDecoder (fixedService ([], 0, none) false) malformedJsonRequest
      freshWorld = (.wrote 403 .empty, freshWorld) ∧
    (InsertProduct typeErrorDecoder (fixedService ([], 0, none) false) malformedJsonRequest
      freshWorld).1 = .wrote 201 .empty :=
  ⟨(insertProduct_decode_error_dropped syntaxErrorDecoder (fixedService ([], 0, none) false)
      malformedJsonRequest freshWorld _ (.other "unexpected end of JSON input") rfl rfl).1
      (by decide),
   ((insertProduct_decode_error_dropped typeErrorDecoder (fixedService ([], 0, none) false)
      malformedJsonRequest freshWorld _
      (.other "json: cannot unmarshal string into Go struct field Product.price of type int")
      rfl rfl).2 rfl [{ content := "png" }] rfl).2 rfl⟩

end Controllers
